import Mathlib

set_option linter.constructorNameAsVariable false
set_option maxHeartbeats 1000000

/-!
Verification of the ARM/AArch64 CPU identification and dispatch core
(`src/processor_arm.cpp`), compiled for the `_CPU_AARCH64_` configuration
(plus the AArch32 FPCR stubs, which are in the same file).

A feature vector (`FeatureList<3>` in the source, three 32-bit words) is
embedded as a `Finset (Fin 96)`: bit `b` is set iff `b` is a member.
`test_nbit`, `set_bit`, union, intersection, complement-under-mask become
membership, `insert`, `∪`, `∩`, `\`.

The feature-name/bit catalog comes from `features_aarch64.h`, which is not
part of the sources given; bit numbers below are modelled from the spec
(words 0 and 1 hold real machine features, word 2 — bits 64 and up — holds
the nominal-only architecture-version pseudo-features `v8_1a` … `v8_6a`).
Likewise the generic helpers of `processor.h` (`enable_depends`,
`disable_depends` over an edge list, `find_cpu`, `find_cpu_name`) are
modelled from the spec where noted.
-/

namespace ARM

abbrev Feat := Finset (Fin 96)

set_option maxRecDepth 40000 in
/-- One dependency edge `(dependent, prerequisite)` (`FeatureDep` in the source). -/
abbrev FeatureDep := Fin 96 × Fin 96

/-- Modelled from the spec: `test_nbit(features, bit)` of `processor.h`;
out-of-range bits read as clear. -/
def test_nbit (F : Feat) (bit : Nat) : Bool :=
  if h : bit < 96 then decide ((⟨bit, h⟩ : Fin 96) ∈ F) else false

/-! ## Generic enable/disable dependency closures

Modelled from the spec: the `processor.h` helpers repeatedly walk a static
edge list; the enable closure sets the prerequisite of every set dependent,
the disable closure clears every dependent whose prerequisite is clear; both
run to a fixpoint reached in a bounded number of passes.  The fuel `97`
(more than the 96 possible bits) is always enough, as proved below. -/

def estep (F : Feat) (e : FeatureDep) : Feat :=
  if e.1 ∈ F then insert e.2 F else F

def epass (es : List FeatureDep) (F : Feat) : Feat :=
  es.foldl estep F

def eiter (es : List FeatureDep) : Nat → Feat → Feat
  | 0, F => F
  | fuel+1, F => if epass es F = F then F else eiter es fuel (epass es F)

def edgeClosure (es : List FeatureDep) (F : Feat) : Feat := eiter es 97 F

def dstep (F : Feat) (e : FeatureDep) : Feat :=
  if e.2 ∈ F then F else F.erase e.1

def dpass (es : List FeatureDep) (F : Feat) : Feat :=
  es.foldl dstep F

def diter (es : List FeatureDep) : Nat → Feat → Feat
  | 0, F => F
  | fuel+1, F => if dpass es F = F then F else diter es fuel (dpass es F)

def dedgeClosure (es : List FeatureDep) (F : Feat) : Feat := diter es 97 F

theorem subset_estep (F : Feat) (e : FeatureDep) : F ⊆ estep F e := by
  unfold estep
  split
  · exact Finset.subset_insert _ _
  · exact Finset.Subset.refl _

theorem subset_epass (es : List FeatureDep) : ∀ F : Feat, F ⊆ epass es F := by
  induction es with
  | nil => intro F; exact Finset.Subset.refl _
  | cons e rest ih =>
    intro F
    exact (subset_estep F e).trans (ih (estep F e))

theorem subset_eiter (es : List FeatureDep) :
    ∀ (fuel : Nat) (F : Feat), F ⊆ eiter es fuel F := by
  intro fuel
  induction fuel with
  | zero => intro F; exact Finset.Subset.refl _
  | succ n ih =>
    intro F
    show F ⊆ if epass es F = F then F else eiter es n (epass es F)
    split
    · exact Finset.Subset.refl _
    · exact (subset_epass es F).trans (ih (epass es F))

theorem subset_edgeClosure (es : List FeatureDep) (F : Feat) :
    F ⊆ edgeClosure es F :=
  subset_eiter es 97 F

theorem epass_card_lt (es : List FeatureDep) {F : Feat} (h : epass es F ≠ F) :
    F.card < (epass es F).card :=
  Finset.card_lt_card (Finset.ssubset_iff_subset_ne.mpr ⟨subset_epass es F, fun he => h he.symm⟩)

theorem epass_eiter_fix (es : List FeatureDep) :
    ∀ (fuel : Nat) (F : Feat), 96 - F.card < fuel →
      epass es (eiter es fuel F) = eiter es fuel F := by
  intro fuel
  induction fuel with
  | zero => intro F h; omega
  | succ n ih =>
    intro F h
    have hunfold : eiter es (n+1) F =
        if epass es F = F then F else eiter es n (epass es F) := rfl
    rw [hunfold]
    by_cases hf : epass es F = F
    · simp only [if_pos hf]
      exact hf
    · simp only [if_neg hf]
      apply ih
      have h1 : F.card < (epass es F).card := epass_card_lt es hf
      have h2 : (epass es F).card ≤ 96 := by
        have := Finset.card_le_card (Finset.subset_univ (epass es F))
        simpa using this
      omega

theorem epass_edgeClosure_fix (es : List FeatureDep) (F : Feat) :
    epass es (edgeClosure es F) = edgeClosure es F := by
  apply epass_eiter_fix
  have : 96 - F.card ≤ 96 := Nat.sub_le _ _
  omega

theorem eiter_eq_of_fix {es : List FeatureDep} {G : Feat} (h : epass es G = G) :
    ∀ fuel, eiter es fuel G = G := by
  intro fuel
  induction fuel with
  | zero => rfl
  | succ n _ =>
    show (if epass es G = G then G else eiter es n (epass es G)) = G
    simp [h]

theorem edgeClosure_eq_of_fix {es : List FeatureDep} {G : Feat}
    (h : epass es G = G) : edgeClosure es G = G :=
  eiter_eq_of_fix h 97

theorem estep_subset_union (F : Feat) (e : FeatureDep) :
    estep F e ⊆ F ∪ {e.2} := by
  unfold estep
  split
  · intro x hx
    rcases Finset.mem_insert.mp hx with h | h
    · exact Finset.mem_union_right _ (by simp [h])
    · exact Finset.mem_union_left _ h
  · exact Finset.subset_union_left

theorem epass_subset_union (es : List FeatureDep) :
    ∀ F : Feat, epass es F ⊆ F ∪ (es.map Prod.snd).toFinset := by
  induction es with
  | nil => intro F; simp [epass]
  | cons e rest ih =>
    intro F
    have h1 : epass (e :: rest) F = epass rest (estep F e) := rfl
    rw [h1]
    refine (ih (estep F e)).trans ?_
    intro x hx
    rcases Finset.mem_union.mp hx with h | h
    · rcases Finset.mem_union.mp (estep_subset_union F e h) with h2 | h2
      · exact Finset.mem_union_left _ h2
      · apply Finset.mem_union_right
        simp only [List.toFinset_cons, List.map_cons, Finset.mem_insert]
        left
        simpa using h2
    · apply Finset.mem_union_right
      simp only [List.map_cons, List.toFinset_cons, Finset.mem_insert]
      right
      exact h

theorem eiter_subset_union (es : List FeatureDep) :
    ∀ (fuel : Nat) (F : Feat),
      eiter es fuel F ⊆ F ∪ (es.map Prod.snd).toFinset := by
  intro fuel
  induction fuel with
  | zero => intro F; exact Finset.subset_union_left
  | succ n ih =>
    intro F
    show (if epass es F = F then F else eiter es n (epass es F)) ⊆ _
    split
    · exact Finset.subset_union_left
    · refine (ih (epass es F)).trans ?_
      intro x hx
      rcases Finset.mem_union.mp hx with h | h
      · exact (epass_subset_union es F) h
      · exact Finset.mem_union_right _ h

theorem edgeClosure_subset_union (es : List FeatureDep) (F : Feat) :
    edgeClosure es F ⊆ F ∪ (es.map Prod.snd).toFinset :=
  eiter_subset_union es 97 F

theorem dstep_subset (F : Feat) (e : FeatureDep) : dstep F e ⊆ F := by
  unfold dstep
  split
  · exact Finset.Subset.refl _
  · exact Finset.erase_subset _ _

theorem dpass_subset (es : List FeatureDep) : ∀ F : Feat, dpass es F ⊆ F := by
  induction es with
  | nil => intro F; exact Finset.Subset.refl _
  | cons e rest ih =>
    intro F
    exact (ih (dstep F e)).trans (dstep_subset F e)

theorem diter_subset (es : List FeatureDep) :
    ∀ (fuel : Nat) (F : Feat), diter es fuel F ⊆ F := by
  intro fuel
  induction fuel with
  | zero => intro F; exact Finset.Subset.refl _
  | succ n ih =>
    intro F
    show (if dpass es F = F then F else diter es n (dpass es F)) ⊆ F
    split
    · exact Finset.Subset.refl _
    · exact (ih (dpass es F)).trans (dpass_subset es F)

theorem dedgeClosure_subset (es : List FeatureDep) (F : Feat) :
    dedgeClosure es F ⊆ F :=
  diter_subset es 97 F

/-! ## AArch64 feature bits

Modelled from the spec: `features_aarch64.h` is not among the sources, so
bit numbers are assigned here (uniquely, real machine features in words 0
and 1, the nominal-only `v8.x-a` version pseudo-features in word 2, i.e. at
bits 64 and above, matching the `{UINT32_MAX, UINT32_MAX, 0}` real mask and
the emitter's `bit >= 32*2` cutoff in the source). -/

namespace Feature

def crc : Fin 96 := 0
def aes : Fin 96 := 1
def sha2 : Fin 96 := 2
def sha3 : Fin 96 := 3
def sm4 : Fin 96 := 4
def lse : Fin 96 := 5
def rdm : Fin 96 := 6
def ccpp : Fin 96 := 7
def ccdp : Fin 96 := 8
def jsconv : Fin 96 := 9
def complxnum : Fin 96 := 10
def rcpc : Fin 96 := 11
def rcpc_immo : Fin 96 := 12
def dit : Fin 96 := 13
def flagm : Fin 96 := 14
def altnzcv : Fin 96 := 15
def sb : Fin 96 := 16
def fptoint : Fin 96 := 17
def i8mm : Fin 96 := 18
def bf16 : Fin 96 := 19
def dotprod : Fin 96 := 20
def fp16fml : Fin 96 := 21
def fullfp16 : Fin 96 := 22
def sve : Fin 96 := 23
def sve2 : Fin 96 := 24
def sve2_aes : Fin 96 := 25
def sve2_bitperm : Fin 96 := 26
def sve2_sha3 : Fin 96 := 27
def sve2_sm4 : Fin 96 := 28
def f32mm : Fin 96 := 29
def f64mm : Fin 96 := 30
def ssbs : Fin 96 := 31
def mte : Fin 96 := 32
def rand : Fin 96 := 33
def pauth : Fin 96 := 34
def v8_1a : Fin 96 := 64
def v8_2a : Fin 96 := 65
def v8_3a : Fin 96 := 66
def v8_4a : Fin 96 := 67
def v8_5a : Fin 96 := 68
def v8_6a : Fin 96 := 69

/-- The static dependency edge list `Feature::deps` of the source
(`{dependent, prerequisite}` rows, in source order). -/
def deps : List FeatureDep :=
  [(rcpc_immo, rcpc),
   (sha3, sha2),
   (ccdp, ccpp),
   (sve, fullfp16),
   (fp16fml, fullfp16),
   (altnzcv, flagm),
   (sve2, sve),
   (sve2_aes, sve2),
   (sve2_aes, aes),
   (sve2_bitperm, sve2),
   (sve2_sha3, sve2),
   (sve2_sha3, sha3),
   (sve2_sm4, sve2),
   (sve2_sm4, sm4),
   (f32mm, sve),
   (f64mm, sve)]

end Feature

/-! ## `ARM::enable_depends` / `ARM::disable_depends`

The AArch64 branch of `enable_depends` first applies the version ladder
(`v8_6a ⇒ v8_5a ⇒ … ⇒ v8_1a ⇒ crc`) and the per-version unlocked
instruction-set bits, as a straight-line sequence of conditional inserts
exactly in source order, then runs the generic edge-list closure. -/

/-- One `if (test_nbit(features, ant)) set_bit(features, …)` block of the
source: if `ant` is set, add the block's bits. -/
def condInsert (ant : Fin 96) (bs : Feat) (F : Feat) : Feat :=
  if ant ∈ F then F ∪ bs else F

theorem mem_condInsert {x ant : Fin 96} {bs F : Feat} :
    x ∈ condInsert ant bs F ↔ x ∈ F ∨ (ant ∈ F ∧ x ∈ bs) := by
  unfold condInsert
  split
  · rename_i h
    simp only [Finset.mem_union]
    tauto
  · rename_i h
    tauto

theorem subset_condInsert (ant : Fin 96) (bs F : Feat) : F ⊆ condInsert ant bs F := by
  unfold condInsert
  split
  · exact Finset.subset_union_left
  · exact Finset.Subset.refl _

theorem condInsert_eq_self {ant : Fin 96} {bs F : Feat} (h : ant ∈ F → bs ⊆ F) :
    condInsert ant bs F = F := by
  unfold condInsert
  split
  · rename_i hm
    exact Finset.union_eq_left.mpr (h hm)
  · rfl

/-- The straight-line version-ladder and unlock part of `ARM::enable_depends`
(source lines 1489–1548, AArch64 branch), innermost applied first. -/
def arm_pre (F : Feat) : Feat :=
  condInsert Feature.v8_6a {Feature.i8mm, Feature.bf16}
   (condInsert Feature.v8_5a {Feature.sb, Feature.ccdp, Feature.altnzcv, Feature.fptoint}
    (condInsert Feature.v8_4a {Feature.dit, Feature.rcpc_immo, Feature.flagm}
     (condInsert Feature.v8_3a {Feature.jsconv, Feature.complxnum, Feature.rcpc}
      (condInsert Feature.v8_2a {Feature.ccpp}
       (condInsert Feature.v8_1a {Feature.lse, Feature.rdm}
        (condInsert Feature.v8_1a {Feature.crc}
         (condInsert Feature.v8_2a {Feature.v8_1a}
          (condInsert Feature.v8_3a {Feature.v8_2a}
           (condInsert Feature.v8_4a {Feature.v8_3a}
            (condInsert Feature.v8_5a {Feature.v8_4a}
             (condInsert Feature.v8_6a {Feature.v8_5a} F)))))))))))

/-- `ARM::enable_depends` (AArch64): the ladder/unlock prefix followed by the
generic closure over `Feature::deps`. -/
def enable_depends (F : Feat) : Feat := edgeClosure Feature.deps (arm_pre F)

/-- `ARM::disable_depends`: the generic disable closure over `Feature::deps`. -/
def disable_depends (F : Feat) : Feat := dedgeClosure Feature.deps F

/-- Closedness of a feature set under every conditional-insert block of
`arm_pre`, listed in the order the blocks are applied. -/
def PreClosed (G : Feat) : Prop :=
  (Feature.v8_6a ∈ G → ({Feature.v8_5a} : Feat) ⊆ G) ∧
  (Feature.v8_5a ∈ G → ({Feature.v8_4a} : Feat) ⊆ G) ∧
  (Feature.v8_4a ∈ G → ({Feature.v8_3a} : Feat) ⊆ G) ∧
  (Feature.v8_3a ∈ G → ({Feature.v8_2a} : Feat) ⊆ G) ∧
  (Feature.v8_2a ∈ G → ({Feature.v8_1a} : Feat) ⊆ G) ∧
  (Feature.v8_1a ∈ G → ({Feature.crc} : Feat) ⊆ G) ∧
  (Feature.v8_1a ∈ G → ({Feature.lse, Feature.rdm} : Feat) ⊆ G) ∧
  (Feature.v8_2a ∈ G → ({Feature.ccpp} : Feat) ⊆ G) ∧
  (Feature.v8_3a ∈ G → ({Feature.jsconv, Feature.complxnum, Feature.rcpc} : Feat) ⊆ G) ∧
  (Feature.v8_4a ∈ G → ({Feature.dit, Feature.rcpc_immo, Feature.flagm} : Feat) ⊆ G) ∧
  (Feature.v8_5a ∈ G → ({Feature.sb, Feature.ccdp, Feature.altnzcv, Feature.fptoint} : Feat) ⊆ G) ∧
  (Feature.v8_6a ∈ G → ({Feature.i8mm, Feature.bf16} : Feat) ⊆ G)

theorem preClosed_arm_pre (F : Feat) : PreClosed (arm_pre F) := by
  unfold PreClosed
  refine ⟨?_, ?_, ?_, ?_, ?_, ?_, ?_, ?_, ?_, ?_, ?_, ?_⟩ <;>
    (intro h
     simp +decide [arm_pre, mem_condInsert, Finset.insert_subset_iff,
       Finset.singleton_subset_iff] at h ⊢
     tauto)

theorem arm_pre_eq_self {G : Feat} (h : PreClosed G) : arm_pre G = G := by
  obtain ⟨p1, p2, p3, p4, p5, p6, p7, p8, p9, p10, p11, p12⟩ := h
  unfold arm_pre
  rw [condInsert_eq_self p1, condInsert_eq_self p2, condInsert_eq_self p3,
      condInsert_eq_self p4, condInsert_eq_self p5, condInsert_eq_self p6,
      condInsert_eq_self p7, condInsert_eq_self p8, condInsert_eq_self p9,
      condInsert_eq_self p10, condInsert_eq_self p11, condInsert_eq_self p12]

theorem subset_arm_pre (F : Feat) : F ⊆ arm_pre F := by
  unfold arm_pre
  refine Finset.Subset.trans ?_ (subset_condInsert _ _ _)
  refine Finset.Subset.trans ?_ (subset_condInsert _ _ _)
  refine Finset.Subset.trans ?_ (subset_condInsert _ _ _)
  refine Finset.Subset.trans ?_ (subset_condInsert _ _ _)
  refine Finset.Subset.trans ?_ (subset_condInsert _ _ _)
  refine Finset.Subset.trans ?_ (subset_condInsert _ _ _)
  refine Finset.Subset.trans ?_ (subset_condInsert _ _ _)
  refine Finset.Subset.trans ?_ (subset_condInsert _ _ _)
  refine Finset.Subset.trans ?_ (subset_condInsert _ _ _)
  refine Finset.Subset.trans ?_ (subset_condInsert _ _ _)
  refine Finset.Subset.trans ?_ (subset_condInsert _ _ _)
  exact subset_condInsert _ _ _

theorem v8_1a_not_prereq : Feature.v8_1a ∉ (Feature.deps.map Prod.snd).toFinset := by decide

theorem v8_2a_not_prereq : Feature.v8_2a ∉ (Feature.deps.map Prod.snd).toFinset := by decide

theorem v8_3a_not_prereq : Feature.v8_3a ∉ (Feature.deps.map Prod.snd).toFinset := by decide

theorem v8_4a_not_prereq : Feature.v8_4a ∉ (Feature.deps.map Prod.snd).toFinset := by decide

theorem v8_5a_not_prereq : Feature.v8_5a ∉ (Feature.deps.map Prod.snd).toFinset := by decide

theorem v8_6a_not_prereq : Feature.v8_6a ∉ (Feature.deps.map Prod.snd).toFinset := by decide

attribute [irreducible] estep epass eiter edgeClosure dstep dpass diter dedgeClosure
  condInsert arm_pre

theorem subset_enable_depends (F : Feat) : F ⊆ enable_depends F :=
  (subset_arm_pre F).trans (subset_edgeClosure Feature.deps (arm_pre F))

/-- None of the prerequisite bits of `Feature::deps` is a version
pseudo-bit, so the closure cannot newly set a version bit. -/
theorem v8_mem_arm_pre_of_closure {b : Fin 96}
    (hb : b ∉ (Feature.deps.map Prod.snd).toFinset) {F : Feat}
    (h : b ∈ enable_depends F) : b ∈ arm_pre F := by
  rcases Finset.mem_union.mp
      (Finset.mem_of_subset (edgeClosure_subset_union Feature.deps (arm_pre F)) h) with h' | h'
  · exact h'
  · exact absurd h' hb

theorem preClosed_enable_depends (F : Feat) : PreClosed (enable_depends F) := by
  obtain ⟨p1, p2, p3, p4, p5, p6, p7, p8, p9, p10, p11, p12⟩ := preClosed_arm_pre F
  have hsub : arm_pre F ⊆ enable_depends F := subset_edgeClosure Feature.deps (arm_pre F)
  refine ⟨?_, ?_, ?_, ?_, ?_, ?_, ?_, ?_, ?_, ?_, ?_, ?_⟩
  · exact fun h => (p1 (v8_mem_arm_pre_of_closure v8_6a_not_prereq h)).trans hsub
  · exact fun h => (p2 (v8_mem_arm_pre_of_closure v8_5a_not_prereq h)).trans hsub
  · exact fun h => (p3 (v8_mem_arm_pre_of_closure v8_4a_not_prereq h)).trans hsub
  · exact fun h => (p4 (v8_mem_arm_pre_of_closure v8_3a_not_prereq h)).trans hsub
  · exact fun h => (p5 (v8_mem_arm_pre_of_closure v8_2a_not_prereq h)).trans hsub
  · exact fun h => (p6 (v8_mem_arm_pre_of_closure v8_1a_not_prereq h)).trans hsub
  · exact fun h => (p7 (v8_mem_arm_pre_of_closure v8_1a_not_prereq h)).trans hsub
  · exact fun h => (p8 (v8_mem_arm_pre_of_closure v8_2a_not_prereq h)).trans hsub
  · exact fun h => (p9 (v8_mem_arm_pre_of_closure v8_3a_not_prereq h)).trans hsub
  · exact fun h => (p10 (v8_mem_arm_pre_of_closure v8_4a_not_prereq h)).trans hsub
  · exact fun h => (p11 (v8_mem_arm_pre_of_closure v8_5a_not_prereq h)).trans hsub
  · exact fun h => (p12 (v8_mem_arm_pre_of_closure v8_6a_not_prereq h)).trans hsub

theorem enable_depends_idem (F : Feat) :
    enable_depends (enable_depends F) = enable_depends F := by
  have h1 : arm_pre (enable_depends F) = enable_depends F :=
    arm_pre_eq_self (preClosed_enable_depends F)
  have h2 : epass Feature.deps (enable_depends F) = enable_depends F :=
    epass_edgeClosure_fix Feature.deps (arm_pre F)
  show edgeClosure Feature.deps (arm_pre (enable_depends F)) = enable_depends F
  rw [h1]
  exact edgeClosure_eq_of_fix h2

theorem disable_depends_subset (F : Feat) : disable_depends F ⊆ F :=
  dedgeClosure_subset Feature.deps F

/-! ## CPU ids

Numeric values of the `enum class CPU` of the source, in declaration order
(only the constants the AArch64 configuration uses are named). -/

namespace CPU

def generic : Nat := 0
def armv7_a : Nat := 1
def armv7_m : Nat := 2
def armv7e_m : Nat := 3
def armv7_r : Nat := 4
def armv8_a : Nat := 5
def armv8_m_base : Nat := 6
def armv8_m_main : Nat := 7
def armv8_r : Nat := 8
def armv8_1_a : Nat := 9
def armv8_2_a : Nat := 10
def armv8_3_a : Nat := 11
def armv8_4_a : Nat := 12
def armv8_5_a : Nat := 13
def armv8_6_a : Nat := 14
def arm_cortex_a34 : Nat := 39
def arm_cortex_a35 : Nat := 40
def arm_cortex_a53 : Nat := 41
def arm_cortex_a55 : Nat := 42
def arm_cortex_a57 : Nat := 43
def arm_cortex_a65 : Nat := 44
def arm_cortex_a65ae : Nat := 45
def arm_cortex_a72 : Nat := 46
def arm_cortex_a73 : Nat := 47
def arm_cortex_a75 : Nat := 48
def arm_cortex_a76 : Nat := 49
def arm_cortex_a76ae : Nat := 50
def arm_cortex_a77 : Nat := 51
def arm_cortex_a78 : Nat := 52
def arm_cortex_x1 : Nat := 53
def arm_neoverse_e1 : Nat := 54
def arm_neoverse_n1 : Nat := 55
def arm_neoverse_v1 : Nat := 56
def arm_neoverse_n2 : Nat := 57
def cavium_thunderx : Nat := 58
def cavium_thunderx88 : Nat := 59
def cavium_thunderx88p1 : Nat := 60
def cavium_thunderx81 : Nat := 61
def cavium_thunderx83 : Nat := 62
def cavium_thunderx2t99 : Nat := 63
def cavium_thunderx2t99p1 : Nat := 64
def cavium_octeontx2 : Nat := 65
def cavium_octeontx2t98 : Nat := 66
def cavium_octeontx2t96 : Nat := 67
def cavium_octeontx2f95 : Nat := 68
def cavium_octeontx2f95n : Nat := 69
def cavium_octeontx2f95mm : Nat := 70
def fujitsu_a64fx : Nat := 71
def hisilicon_tsv110 : Nat := 72
def hxt_phecda : Nat := 73
def nvidia_denver1 : Nat := 74
def nvidia_denver2 : Nat := 75
def nvidia_carmel : Nat := 76
def apm_xgene1 : Nat := 77
def apm_xgene2 : Nat := 78
def apm_xgene3 : Nat := 79
def qualcomm_kyro : Nat := 82
def qualcomm_falkor : Nat := 83
def qualcomm_saphira : Nat := 84
def samsung_exynos_m1 : Nat := 85
def samsung_exynos_m2 : Nat := 86
def samsung_exynos_m3 : Nat := 87
def samsung_exynos_m4 : Nat := 88
def samsung_exynos_m5 : Nat := 89
def apple_a7 : Nat := 91
def apple_a8 : Nat := 92
def apple_a9 : Nat := 93
def apple_a10 : Nat := 94
def apple_a11 : Nat := 95
def apple_a12 : Nat := 96
def apple_a13 : Nat := 97
def apple_a14 : Nat := 98
def apple_a15 : Nat := 99
def apple_a16 : Nat := 100
def apple_a17 : Nat := 101
def apple_m1 : Nat := 102
def apple_m2 : Nat := 103
def apple_m3 : Nat := 104
def apple_m4 : Nat := 105
def apple_s4 : Nat := 106
def apple_s5 : Nat := 107
def marvell_thunderx3t110 : Nat := 109

end CPU

/-! ## Per-CPU base feature sets (AArch64 `Feature` namespace constants) -/

namespace Feature

def generic : Feat := ∅
def armv8a_crc : Feat := {crc}
def armv8a_crc_crypto : Feat := armv8a_crc ∪ {aes, sha2}
def armv8_1a : Feat := armv8a_crc ∪ {v8_1a, lse, rdm}
def armv8_1a_crypto : Feat := armv8_1a ∪ {aes, sha2}
def armv8_2a : Feat := armv8_1a ∪ {v8_2a, ccpp}
def armv8_2a_crypto : Feat := armv8_2a ∪ {aes, sha2}
def armv8_3a : Feat := armv8_2a ∪ {v8_3a, jsconv, complxnum, rcpc}
def armv8_3a_crypto : Feat := armv8_3a ∪ {aes, sha2}
def armv8_4a : Feat := armv8_3a ∪ {v8_4a, dit, rcpc_immo, flagm}
def armv8_4a_crypto : Feat := armv8_4a ∪ {aes, sha2}
def armv8_5a : Feat := armv8_4a ∪ {v8_5a, sb, ccdp, altnzcv, fptoint}
def armv8_5a_crypto : Feat := armv8_5a ∪ {aes, sha2}
def armv8_6a : Feat := armv8_5a ∪ {v8_6a, i8mm, bf16}

def arm_cortex_a34 : Feat := armv8a_crc
def arm_cortex_a35 : Feat := armv8a_crc
def arm_cortex_a53 : Feat := armv8a_crc
def arm_cortex_a55 : Feat := armv8_2a ∪ {dotprod, rcpc, fullfp16, ssbs}
def arm_cortex_a57 : Feat := armv8a_crc
def arm_cortex_a65 : Feat := armv8_2a ∪ {rcpc, fullfp16, ssbs}
def arm_cortex_a72 : Feat := armv8a_crc
def arm_cortex_a73 : Feat := armv8a_crc
def arm_cortex_a75 : Feat := armv8_2a ∪ {dotprod, rcpc, fullfp16}
def arm_cortex_a76 : Feat := armv8_2a ∪ {dotprod, rcpc, fullfp16, ssbs}
def arm_cortex_a77 : Feat := armv8_2a ∪ {dotprod, rcpc, fullfp16, ssbs}
def arm_cortex_a78 : Feat := armv8_2a ∪ {dotprod, rcpc, fullfp16, ssbs}
def arm_cortex_x1 : Feat := armv8_2a ∪ {dotprod, rcpc, fullfp16, ssbs}
def arm_neoverse_e1 : Feat := armv8_2a ∪ {rcpc, fullfp16, ssbs}
def arm_neoverse_n1 : Feat := armv8_2a ∪ {dotprod, rcpc, fullfp16, ssbs}
def arm_neoverse_v1 : Feat := armv8_4a ∪ {sve, i8mm, bf16, fullfp16, ssbs, rand}
def arm_neoverse_n2 : Feat :=
  armv8_5a ∪ {sve, i8mm, bf16, fullfp16, sve2, sve2_bitperm, rand, mte}
def cavium_thunderx : Feat := armv8a_crc_crypto
def cavium_thunderx88 : Feat := armv8a_crc_crypto
def cavium_thunderx88p1 : Feat := armv8a_crc_crypto
def cavium_thunderx81 : Feat := armv8a_crc_crypto
def cavium_thunderx83 : Feat := armv8a_crc_crypto
def cavium_thunderx2t99 : Feat := armv8_1a_crypto
def cavium_thunderx2t99p1 : Feat := cavium_thunderx2t99
def cavium_octeontx2 : Feat := armv8_2a_crypto
def fujitsu_a64fx : Feat := armv8_2a ∪ {sha2, fullfp16, sve, complxnum}
def hisilicon_tsv110 : Feat := armv8_2a_crypto ∪ {dotprod, fullfp16}
def hxt_phecda : Feat := armv8a_crc_crypto
def marvell_thunderx3t110 : Feat := armv8_3a_crypto
def nvidia_denver1 : Feat := generic
def nvidia_denver2 : Feat := armv8a_crc_crypto
def nvidia_carmel : Feat := armv8_2a_crypto ∪ {fullfp16}
def apm_xgene1 : Feat := generic
def apm_xgene2 : Feat := generic
def apm_xgene3 : Feat := generic
def qualcomm_kyro : Feat := armv8a_crc_crypto
def qualcomm_falkor : Feat := armv8a_crc_crypto ∪ {rdm}
def qualcomm_saphira : Feat := armv8_4a_crypto
def samsung_exynos_m1 : Feat := armv8a_crc_crypto
def samsung_exynos_m2 : Feat := armv8a_crc_crypto
def samsung_exynos_m3 : Feat := armv8a_crc_crypto
def samsung_exynos_m4 : Feat := armv8_2a_crypto ∪ {dotprod, fullfp16}
def samsung_exynos_m5 : Feat := samsung_exynos_m4
def apple_a7 : Feat := armv8a_crc_crypto
def apple_a10 : Feat := armv8a_crc_crypto ∪ {rdm}
def apple_a11 : Feat := armv8_2a_crypto ∪ {fullfp16}
def apple_a12 : Feat := armv8_3a_crypto ∪ {fullfp16}
def apple_a13 : Feat := armv8_4a_crypto ∪ {fp16fml, fullfp16, sha3}
def apple_a14 : Feat := armv8_5a_crypto ∪ {dotprod, fp16fml, fullfp16, sha3}
def apple_a15 : Feat := armv8_5a_crypto ∪ {dotprod, fp16fml, fullfp16, sha3, i8mm, bf16}
def apple_a16 : Feat := armv8_5a_crypto ∪ {dotprod, fp16fml, fullfp16, sha3, i8mm, bf16}
def apple_a17 : Feat := armv8_5a_crypto ∪ {dotprod, fp16fml, fullfp16, sha3, i8mm, bf16}
def apple_m1 : Feat := armv8_5a_crypto ∪ {dotprod, fp16fml, fullfp16, sha3}
def apple_m2 : Feat := armv8_5a_crypto ∪ {dotprod, fp16fml, fullfp16, sha3, i8mm, bf16}
def apple_m3 : Feat := armv8_5a_crypto ∪ {dotprod, fp16fml, fullfp16, sha3, i8mm, bf16}
def apple_m4 : Feat := armv8_5a_crypto ∪ {dotprod, fp16fml, fullfp16, sha3, i8mm, bf16}
def apple_s4 : Feat := apple_a12
def apple_s5 : Feat := apple_a12

end Feature

/-! ## Feature-name catalog and masks

The `feature_names` table (modelled from the spec, see the file header):
`{name, bit, min backend version}` rows, ordered by bit, nominal word-2
entries last (the emitter below relies on that order exactly as the source
relies on the order of `features_aarch64.h`). -/

structure FeatureName where
  name : String
  bit : Fin 96
  llvmver : Nat
deriving DecidableEq

def feature_names : List FeatureName :=
  [⟨"crc", Feature.crc, 0⟩,
   ⟨"aes", Feature.aes, 0⟩,
   ⟨"sha2", Feature.sha2, 0⟩,
   ⟨"sha3", Feature.sha3, 0⟩,
   ⟨"sm4", Feature.sm4, 0⟩,
   ⟨"lse", Feature.lse, 0⟩,
   ⟨"rdm", Feature.rdm, 0⟩,
   ⟨"ccpp", Feature.ccpp, 0⟩,
   ⟨"ccdp", Feature.ccdp, 0⟩,
   ⟨"jsconv", Feature.jsconv, 0⟩,
   ⟨"complxnum", Feature.complxnum, 0⟩,
   ⟨"rcpc", Feature.rcpc, 0⟩,
   ⟨"rcpc-immo", Feature.rcpc_immo, 0⟩,
   ⟨"dit", Feature.dit, 0⟩,
   ⟨"flagm", Feature.flagm, 0⟩,
   ⟨"altnzcv", Feature.altnzcv, 0⟩,
   ⟨"sb", Feature.sb, 0⟩,
   ⟨"fptoint", Feature.fptoint, 0⟩,
   ⟨"i8mm", Feature.i8mm, 0⟩,
   ⟨"bf16", Feature.bf16, 0⟩,
   ⟨"dotprod", Feature.dotprod, 0⟩,
   ⟨"fp16fml", Feature.fp16fml, 0⟩,
   ⟨"fullfp16", Feature.fullfp16, 0⟩,
   ⟨"sve", Feature.sve, 0⟩,
   ⟨"sve2", Feature.sve2, 0⟩,
   ⟨"sve2-aes", Feature.sve2_aes, 0⟩,
   ⟨"sve2-bitperm", Feature.sve2_bitperm, 0⟩,
   ⟨"sve2-sha3", Feature.sve2_sha3, 0⟩,
   ⟨"sve2-sm4", Feature.sve2_sm4, 0⟩,
   ⟨"f32mm", Feature.f32mm, 0⟩,
   ⟨"f64mm", Feature.f64mm, 0⟩,
   ⟨"ssbs", Feature.ssbs, 0⟩,
   ⟨"mte", Feature.mte, 0⟩,
   ⟨"rand", Feature.rand, 0⟩,
   ⟨"pauth", Feature.pauth, 0⟩,
   ⟨"v8.1a", Feature.v8_1a, 0⟩,
   ⟨"v8.2a", Feature.v8_2a, 0⟩,
   ⟨"v8.3a", Feature.v8_3a, 0⟩,
   ⟨"v8.4a", Feature.v8_4a, 0⟩,
   ⟨"v8.5a", Feature.v8_5a, 0⟩,
   ⟨"v8.6a", Feature.v8_6a, 0⟩]

/-- `feature_masks`: the set of all named feature bits. -/
def feature_masks : Feat := (feature_names.map (fun fn => fn.bit)).toFinset

/-- The word mask `{UINT32_MAX, UINT32_MAX, 0}`: all bits of words 0 and 1. -/
def low_words_mask : Feat := Finset.univ.filter (fun b : Fin 96 => b.val < 64)

/-- `real_feature_masks = feature_masks & {UINT32_MAX, UINT32_MAX, 0}`. -/
def real_feature_masks : Feat := feature_masks ∩ low_words_mask

/-! ## CPU catalog (`cpus` array, AArch64 branch, in source order) -/

def UINT32_MAX : Nat := 4294967295

structure CPUSpec where
  name : String
  cpu : Nat
  fallback : Nat
  llvmver : Nat
  features : Feat
deriving DecidableEq

def cpus : List CPUSpec :=
  [⟨"generic", CPU.generic, CPU.generic, 0, Feature.generic⟩,
   ⟨"armv8.1-a", CPU.armv8_1_a, CPU.generic, 0, Feature.armv8_1a⟩,
   ⟨"armv8.2-a", CPU.armv8_2_a, CPU.generic, 0, Feature.armv8_2a⟩,
   ⟨"armv8.3_a", CPU.armv8_3_a, CPU.generic, 0, Feature.armv8_3a⟩,
   ⟨"armv8.4-a", CPU.armv8_4_a, CPU.generic, 0, Feature.armv8_4a⟩,
   ⟨"armv8.5-a", CPU.armv8_5_a, CPU.generic, 0, Feature.armv8_5a⟩,
   ⟨"armv8.6_a", CPU.armv8_6_a, CPU.generic, 0, Feature.armv8_6a⟩,
   ⟨"cortex-a34", CPU.arm_cortex_a34, CPU.arm_cortex_a35, 110000, Feature.arm_cortex_a34⟩,
   ⟨"cortex-a35", CPU.arm_cortex_a35, CPU.generic, 0, Feature.arm_cortex_a35⟩,
   ⟨"cortex-a53", CPU.arm_cortex_a53, CPU.generic, 0, Feature.arm_cortex_a53⟩,
   ⟨"cortex-a55", CPU.arm_cortex_a55, CPU.generic, 0, Feature.arm_cortex_a55⟩,
   ⟨"cortex-a57", CPU.arm_cortex_a57, CPU.generic, 0, Feature.arm_cortex_a57⟩,
   ⟨"cortex-a65", CPU.arm_cortex_a65, CPU.arm_cortex_a75, 100000, Feature.arm_cortex_a65⟩,
   ⟨"cortex-a65ae", CPU.arm_cortex_a65ae, CPU.arm_cortex_a75, 100000, Feature.arm_cortex_a65⟩,
   ⟨"cortex-a72", CPU.arm_cortex_a72, CPU.generic, 0, Feature.arm_cortex_a72⟩,
   ⟨"cortex-a73", CPU.arm_cortex_a73, CPU.generic, 0, Feature.arm_cortex_a73⟩,
   ⟨"cortex-a75", CPU.arm_cortex_a75, CPU.generic, 0, Feature.arm_cortex_a75⟩,
   ⟨"cortex-a76", CPU.arm_cortex_a76, CPU.generic, 0, Feature.arm_cortex_a76⟩,
   ⟨"cortex-a76ae", CPU.arm_cortex_a76ae, CPU.generic, 0, Feature.arm_cortex_a76⟩,
   ⟨"cortex-a77", CPU.arm_cortex_a77, CPU.arm_cortex_a76, 110000, Feature.arm_cortex_a77⟩,
   ⟨"cortex-a78", CPU.arm_cortex_a78, CPU.arm_cortex_a77, 110000, Feature.arm_cortex_a78⟩,
   ⟨"cortex-x1", CPU.arm_cortex_x1, CPU.arm_cortex_a78, 110000, Feature.arm_cortex_x1⟩,
   ⟨"neoverse-e1", CPU.arm_neoverse_e1, CPU.arm_cortex_a76, 100000, Feature.arm_neoverse_e1⟩,
   ⟨"neoverse-n1", CPU.arm_neoverse_n1, CPU.arm_cortex_a76, 100000, Feature.arm_neoverse_n1⟩,
   ⟨"neoverse-v1", CPU.arm_neoverse_v1, CPU.arm_neoverse_n1, UINT32_MAX, Feature.arm_neoverse_v1⟩,
   ⟨"neoverse-n2", CPU.arm_neoverse_n2, CPU.arm_neoverse_n1, UINT32_MAX, Feature.arm_neoverse_n2⟩,
   ⟨"thunderx", CPU.cavium_thunderx, CPU.generic, 0, Feature.cavium_thunderx⟩,
   ⟨"thunderxt88", CPU.cavium_thunderx88, CPU.generic, 0, Feature.cavium_thunderx88⟩,
   ⟨"thunderxt88p1", CPU.cavium_thunderx88p1, CPU.cavium_thunderx88, UINT32_MAX,
    Feature.cavium_thunderx88p1⟩,
   ⟨"thunderxt81", CPU.cavium_thunderx81, CPU.generic, 0, Feature.cavium_thunderx81⟩,
   ⟨"thunderxt83", CPU.cavium_thunderx83, CPU.generic, 0, Feature.cavium_thunderx83⟩,
   ⟨"thunderx2t99", CPU.cavium_thunderx2t99, CPU.generic, 0, Feature.cavium_thunderx2t99⟩,
   ⟨"thunderx2t99p1", CPU.cavium_thunderx2t99p1, CPU.cavium_thunderx2t99, UINT32_MAX,
    Feature.cavium_thunderx2t99p1⟩,
   ⟨"octeontx2", CPU.cavium_octeontx2, CPU.arm_cortex_a57, UINT32_MAX, Feature.cavium_octeontx2⟩,
   ⟨"octeontx2t98", CPU.cavium_octeontx2t98, CPU.arm_cortex_a57, UINT32_MAX,
    Feature.cavium_octeontx2⟩,
   ⟨"octeontx2t96", CPU.cavium_octeontx2t96, CPU.arm_cortex_a57, UINT32_MAX,
    Feature.cavium_octeontx2⟩,
   ⟨"octeontx2f95", CPU.cavium_octeontx2f95, CPU.arm_cortex_a57, UINT32_MAX,
    Feature.cavium_octeontx2⟩,
   ⟨"octeontx2f95n", CPU.cavium_octeontx2f95n, CPU.arm_cortex_a57, UINT32_MAX,
    Feature.cavium_octeontx2⟩,
   ⟨"octeontx2f95mm", CPU.cavium_octeontx2f95mm, CPU.arm_cortex_a57, UINT32_MAX,
    Feature.cavium_octeontx2⟩,
   ⟨"a64fx", CPU.fujitsu_a64fx, CPU.generic, 110000, Feature.fujitsu_a64fx⟩,
   ⟨"tsv110", CPU.hisilicon_tsv110, CPU.generic, 0, Feature.hisilicon_tsv110⟩,
   ⟨"phecda", CPU.hxt_phecda, CPU.qualcomm_falkor, UINT32_MAX, Feature.hxt_phecda⟩,
   ⟨"denver1", CPU.nvidia_denver1, CPU.generic, UINT32_MAX, Feature.nvidia_denver1⟩,
   ⟨"denver2", CPU.nvidia_denver2, CPU.generic, UINT32_MAX, Feature.nvidia_denver2⟩,
   ⟨"carmel", CPU.nvidia_carmel, CPU.generic, 110000, Feature.nvidia_carmel⟩,
   ⟨"xgene1", CPU.apm_xgene1, CPU.generic, UINT32_MAX, Feature.apm_xgene1⟩,
   ⟨"xgene2", CPU.apm_xgene2, CPU.generic, UINT32_MAX, Feature.apm_xgene2⟩,
   ⟨"xgene3", CPU.apm_xgene3, CPU.generic, UINT32_MAX, Feature.apm_xgene3⟩,
   ⟨"kyro", CPU.qualcomm_kyro, CPU.generic, 0, Feature.qualcomm_kyro⟩,
   ⟨"falkor", CPU.qualcomm_falkor, CPU.generic, 0, Feature.qualcomm_falkor⟩,
   ⟨"saphira", CPU.qualcomm_saphira, CPU.generic, 0, Feature.qualcomm_saphira⟩,
   ⟨"exynos-m1", CPU.samsung_exynos_m1, CPU.generic, UINT32_MAX, Feature.samsung_exynos_m1⟩,
   ⟨"exynos-m2", CPU.samsung_exynos_m2, CPU.generic, UINT32_MAX, Feature.samsung_exynos_m2⟩,
   ⟨"exynos-m3", CPU.samsung_exynos_m3, CPU.generic, 0, Feature.samsung_exynos_m3⟩,
   ⟨"exynos-m4", CPU.samsung_exynos_m4, CPU.generic, 0, Feature.samsung_exynos_m4⟩,
   ⟨"exynos-m5", CPU.samsung_exynos_m5, CPU.samsung_exynos_m4, 110000, Feature.samsung_exynos_m5⟩,
   ⟨"apple-a7", CPU.apple_a7, CPU.generic, 100000, Feature.apple_a7⟩,
   ⟨"apple-a8", CPU.apple_a8, CPU.generic, 100000, Feature.apple_a7⟩,
   ⟨"apple-a9", CPU.apple_a9, CPU.generic, 100000, Feature.apple_a7⟩,
   ⟨"apple-a10", CPU.apple_a10, CPU.generic, 100000, Feature.apple_a10⟩,
   ⟨"apple-a11", CPU.apple_a11, CPU.generic, 100000, Feature.apple_a11⟩,
   ⟨"apple-a12", CPU.apple_a12, CPU.generic, 100000, Feature.apple_a12⟩,
   ⟨"apple-a13", CPU.apple_a13, CPU.generic, 100000, Feature.apple_a13⟩,
   ⟨"apple-a14", CPU.apple_a14, CPU.apple_a13, 120000, Feature.apple_a14⟩,
   ⟨"apple-a15", CPU.apple_a15, CPU.apple_a14, 160000, Feature.apple_a15⟩,
   ⟨"apple-a16", CPU.apple_a16, CPU.apple_a14, 160000, Feature.apple_a16⟩,
   ⟨"apple-a17", CPU.apple_a17, CPU.apple_a16, 190000, Feature.apple_a17⟩,
   ⟨"apple-m1", CPU.apple_m1, CPU.apple_a14, 130000, Feature.apple_m1⟩,
   ⟨"apple-m2", CPU.apple_m2, CPU.apple_m1, 160000, Feature.apple_m2⟩,
   ⟨"apple-m3", CPU.apple_m3, CPU.apple_m2, 180000, Feature.apple_m3⟩,
   ⟨"apple-m4", CPU.apple_m4, CPU.apple_m3, 190000, Feature.apple_m4⟩,
   ⟨"apple-s4", CPU.apple_s4, CPU.generic, 100000, Feature.apple_s4⟩,
   ⟨"apple-s5", CPU.apple_s5, CPU.generic, 100000, Feature.apple_s5⟩,
   ⟨"thunderx3t110", CPU.marvell_thunderx3t110, CPU.cavium_thunderx2t99, 110000,
    Feature.marvell_thunderx3t110⟩]

/-- Modelled from the spec: `find_cpu_by_name` — linear search of the catalog. -/
def find_cpu (name : String) : Option CPUSpec :=
  cpus.find? (fun s => s.name == name)

/-- Modelled from the spec: `find_cpu_by_id` — linear search of the catalog by id. -/
def find_cpu_id (cpu : Nat) : Option CPUSpec :=
  cpus.find? (fun s => s.cpu == cpu)

/-- Modelled from the spec: `find_cpu_name(id)` returns the catalog name of the id. -/
def find_cpu_name (cpu : Nat) : String :=
  ((find_cpu_id cpu).map (fun s => s.name)).getD "generic"

/-- `is_generic_cpu_name` — the architecture-alias ids of the source switch. -/
def is_generic_cpu_name (cpu : Nat) : Bool :=
  [CPU.generic, CPU.armv7_a, CPU.armv7_m, CPU.armv7e_m, CPU.armv7_r, CPU.armv8_a,
   CPU.armv8_m_base, CPU.armv8_m_main, CPU.armv8_r, CPU.armv8_1_a, CPU.armv8_2_a,
   CPU.armv8_3_a, CPU.armv8_4_a, CPU.armv8_5_a, CPU.armv8_6_a].contains cpu

/-! ## Target data and clone-directive flags

The clone-directive bit constants are fixed by the image ABI in a header
that is not among the sources; modelled from the spec as distinct bits. -/

def JL_TARGET_VEC_CALL : Nat := 2 ^ 0
def JL_TARGET_CLONE_ALL : Nat := 2 ^ 1
def JL_TARGET_CLONE_MATH : Nat := 2 ^ 2
def JL_TARGET_CLONE_SIMD : Nat := 2 ^ 3
def JL_TARGET_CLONE_CPU : Nat := 2 ^ 4
def JL_TARGET_CLONE_LOOP : Nat := 2 ^ 5
def JL_TARGET_CLONE_FLOAT16 : Nat := 2 ^ 6
def JL_TARGET_UNKNOWN_NAME : Nat := 2 ^ 7

/-- One `enable`/`disable` half of a `TargetData`: a feature vector plus a
32-bit flag word. -/
structure FeatFlags where
  features : Feat
  flags : Nat
deriving DecidableEq

/-- `TargetData<feature_sz>` of the source. -/
structure TargetData where
  name : String
  ext_features : String
  en : FeatFlags
  dis : FeatFlags
  base : Nat
deriving DecidableEq

instance : Inhabited TargetData := ⟨⟨"", "", ⟨∅, 0⟩, ⟨∅, 0⟩, 0⟩⟩

/-- The memoized host state: `get_host_cpu()` plus the name the external
`jl_get_cpu_name_llvm()` would report (modelled from the spec; the latter is
outside this file's sources and only consulted for generic host ids). -/
structure HostState where
  cpu : Nat
  features : Feat
  llvmCpuName : String

/-- `host_cpu_name()`: the catalog name of the host id, except that a
generic host id defers to the LLVM-reported name when that is not
`"generic"`. -/
def host_cpu_name (host : HostState) : String :=
  if is_generic_cpu_name host.cpu && (host.llvmCpuName != "generic") then host.llvmCpuName
  else find_cpu_name host.cpu

/-! ## Target resolution (`arg_target_data`) -/

/-- The name/base-features/flags selection at the top of `arg_target_data`:
`"native"` pins to the host, otherwise the catalog is consulted; a miss
leaves the base features unknown. -/
def resolved_base_features (host : HostState) (arg : TargetData) : Option Feat :=
  if arg.name = "native" then some host.features
  else (find_cpu arg.name).map (fun s => s.features)

/-- Flag word of the resolved target: a catalog miss (for a non-native
name) ORs in `JL_TARGET_UNKNOWN_NAME`. -/
def resolved_flags (arg : TargetData) : Nat :=
  if arg.name = "native" ∨ (find_cpu arg.name).isSome then arg.en.flags
  else arg.en.flags ||| JL_TARGET_UNKNOWN_NAME

/-- Enable features after step 3–4 of resolution: union in the base
features (when known) and close under dependencies. -/
def resolved_en1 (host : HostState) (arg : TargetData) : Feat :=
  enable_depends (match resolved_base_features host arg with
    | some f => arg.en.features ∪ f
    | none => arg.en.features)

/-- Enable features after all resolution steps: clear the explicit disables,
optionally intersect with the host, and run the disable closure. -/
def resolved_enable_features (host : HostState) (arg : TargetData) (require_host : Bool) : Feat :=
  disable_depends
    (if require_host then (resolved_en1 host arg \ arg.dis.features) ∩ host.features
     else resolved_en1 host arg \ arg.dis.features)

/-- `arg_target_data(arg, require_host)` of the source: the fully resolved
target.  When the base features are known the disable set is rewritten to
`feature_masks & ~enable`. -/
def arg_target_data (host : HostState) (arg : TargetData) (require_host : Bool) : TargetData :=
  { name := if arg.name = "native" then host_cpu_name host else arg.name
    ext_features := arg.ext_features
    en := { features := resolved_enable_features host arg require_host
            flags := resolved_flags arg }
    dis := { features := match resolved_base_features host arg with
               | some _ => feature_masks \ resolved_enable_features host arg require_host
               | none => arg.dis.features
             flags := arg.dis.flags }
    base := arg.base }

theorem resolved_enable_features_subset (host : HostState) (arg : TargetData)
    (rh : Bool) :
    resolved_enable_features host arg rh ⊆ resolved_en1 host arg \ arg.dis.features := by
  unfold resolved_enable_features
  refine (disable_depends_subset _).trans ?_
  split
  · exact Finset.inter_subset_left
  · exact Finset.Subset.refl _

/-- C3: for every feature vector `F`, `enable_depends F` is a superset of
`F`, and `enable_depends` is idempotent:
`enable_depends (enable_depends F) = enable_depends F`. -/
theorem claim_C3_enable_depends_superset_idempotent (F : Feat) :
    F ⊆ enable_depends F ∧ enable_depends (enable_depends F) = enable_depends F :=
  ⟨subset_enable_depends F, enable_depends_idem F⟩

/-- C4: for every parsed target (whether or not its CPU name is found in
the catalog), any host state and either require-host mode, the resolved
target's enable and disable feature sets are disjoint. -/
theorem claim_C4_resolved_enable_disable_disjoint (host : HostState) (arg : TargetData)
    (rh : Bool) :
    (arg_target_data host arg rh).en.features ∩ (arg_target_data host arg rh).dis.features
      = ∅ := by
  show resolved_enable_features host arg rh ∩
      (match resolved_base_features host arg with
        | some _ => feature_masks \ resolved_enable_features host arg rh
        | none => arg.dis.features) = ∅
  rcases h : resolved_base_features host arg with _ | f
  · apply Finset.eq_empty_iff_forall_not_mem.mpr
    intro x hx
    rcases Finset.mem_inter.mp hx with ⟨hx1, hx2⟩
    have hx3 := resolved_enable_features_subset host arg rh hx1
    exact (Finset.mem_sdiff.mp hx3).2 hx2
  · exact Finset.inter_sdiff_self _ _

theorem resolved_base_features_isSome (host : HostState) (arg : TargetData)
    (h : arg.name = "native" ∨ (find_cpu arg.name).isSome = true) :
    ∃ f, resolved_base_features host arg = some f := by
  unfold resolved_base_features
  by_cases hn : arg.name = "native"
  · exact ⟨host.features, by rw [if_pos hn]⟩
  · rcases h with h | h
    · exact absurd h hn
    · rcases Option.isSome_iff_exists.mp h with ⟨s, hs⟩
      exact ⟨s.features, by rw [if_neg hn, hs]; rfl⟩

/-- C1 (amended): for every resolved target whose CPU name was found in the
catalog or was `"native"`, the disable feature set equals the full feature
mask (`feature_masks`, nominal word included) AND-ed with the complement of
the enable feature set.  The source writes `feature_masks[i] & ~en[i]`, not
`real_feature_masks[i] & ~en[i]` as the spec states; the two differ on the
nominal third word (see the counterexample). -/
theorem claim_C1_disable_eq_mask_sdiff_enable (host : HostState) (arg : TargetData)
    (rh : Bool) (h : arg.name = "native" ∨ (find_cpu arg.name).isSome = true) :
    (arg_target_data host arg rh).dis.features =
      feature_masks \ (arg_target_data host arg rh).en.features := by
  obtain ⟨f, hf⟩ := resolved_base_features_isSome host arg h
  show (match resolved_base_features host arg with
        | some _ => feature_masks \ resolved_enable_features host arg rh
        | none => arg.dis.features) =
      feature_masks \ resolved_enable_features host arg rh
  rw [hf]

/-! ## Feature queries (`jl_test_cpu_feature`) -/

def feature_sz : Nat := 3

/-- `jl_test_cpu_feature`: bits at or above `32 * feature_sz` are reported
absent, others read the host feature vector.  The function is total — there
is no out-of-bounds access to model. -/
def jl_test_cpu_feature (host : Feat) (feature : Nat) : Bool :=
  if feature ≥ 32 * feature_sz then false
  else test_nbit host feature

/-- C7: `jl_test_cpu_feature` never crashes (it is a total function);
any feature bit at or above `32 × 3 = 96` is reported absent, and any bit
below that bound reads exactly that bit of the host feature vector. -/
theorem claim_C7_test_cpu_feature_bounds (host : Feat) (b : Nat) :
    (32 * feature_sz ≤ b → jl_test_cpu_feature host b = false) ∧
    (b < 32 * feature_sz → jl_test_cpu_feature host b = test_nbit host b) := by
  constructor
  · intro h
    unfold jl_test_cpu_feature
    rw [if_pos h]
  · intro h
    unfold jl_test_cpu_feature
    rw [if_neg (by omega)]

/-! ## Sysimg/pkgimg initialization order (`jl_init_processor_sysimg`,
`jl_init_processor_pkgimg`)

`jl_error` aborts the process; modelled from the spec as `Except.error`
with the source's message.  The external `parse_sysimg` continuation is
modelled as plain success. -/

def jl_init_processor_sysimg (jit_targets : List TargetData) : Except String Unit :=
  if !jit_targets.isEmpty then Except.error "JIT targets already initialized"
  else Except.ok ()

def jl_init_processor_pkgimg (jit_targets : List TargetData) : Except String Unit :=
  if jit_targets.isEmpty then Except.error "JIT targets not initialized"
  else if jit_targets.length > 1 then Except.error "Expected only one JIT target"
  else Except.ok ()

/-- C5: sysimg initialization fails when the JIT target list is already
non-empty; pkgimg initialization fails when the list is empty, and also
fails when it holds more than one entry. -/
theorem claim_C5_init_order_errors (jit : List TargetData) :
    (jit ≠ [] →
      jl_init_processor_sysimg jit = Except.error "JIT targets already initialized") ∧
    (jl_init_processor_pkgimg [] = Except.error "JIT targets not initialized") ∧
    (1 < jit.length →
      jl_init_processor_pkgimg jit = Except.error "Expected only one JIT target") := by
  refine ⟨fun h => ?_, rfl, fun h => ?_⟩
  · cases jit with
    | nil => exact absurd rfl h
    | cons a l => rfl
  · cases jit with
    | nil => simp at h
    | cons a l =>
      unfold jl_init_processor_pkgimg
      rw [if_neg (by simp), if_pos h]

/-! ## AArch32 FPCR stubs

The `#else` (AArch32) branch of the FPCR accessors, source lines 2066–2085:
pure stubs with no side effect; the set operations return their argument. -/

def jl_get_zero_subnormals_aarch32 : Int := 0

def jl_set_zero_subnormals_aarch32 (isZero : Int) : Int := isZero

def jl_get_default_nans_aarch32 : Int := 0

def jl_set_default_nans_aarch32 (isDefault : Int) : Int := isDefault

/-- C8 counterexample: on AArch32, setting flush-to-zero with argument 1
returns 1, not the success value 0 that the claim asserts for every
argument. -/
theorem claim_C8_counterexample : ¬ (jl_set_zero_subnormals_aarch32 1 = 0) := by decide

/-- C8 (amended): on AArch32 the four FPCR operations are pure stubs with
no side effect; the get operations return 0 and each set operation returns
its argument — thus a set operation returns the success value 0 exactly
when its argument is 0. -/
theorem claim_C8_aarch32_fpcr_stubs (z : Int) :
    jl_set_zero_subnormals_aarch32 z = z ∧ jl_set_default_nans_aarch32 z = z ∧
    jl_get_zero_subnormals_aarch32 = 0 ∧ jl_get_default_nans_aarch32 = 0 :=
  ⟨rfl, rfl, rfl, rfl⟩

/-! ## Darwin + AArch64 host discovery -/

/-- Modelled from the spec: `llvm::StringRef::find(needle) != npos`, i.e.
substring containment on the sysctl brand string. -/
def strref_contains (hay needle : List Char) : Bool :=
  hay.tails.any (fun t => needle.isPrefixOf t)

/-- Darwin + AArch64 `_get_host_cpu`, source lines 718–735: match the
brand string against `M1`, `M2`, `M3`, `M4` in that order; anything else
falls back to Apple M1. -/
def darwin_get_host_cpu (brand : List Char) : Nat × Feat :=
  if strref_contains brand ['M', '1'] then (CPU.apple_m1, Feature.apple_m1)
  else if strref_contains brand ['M', '2'] then (CPU.apple_m2, Feature.apple_m2)
  else if strref_contains brand ['M', '3'] then (CPU.apple_m3, Feature.apple_m3)
  else if strref_contains brand ['M', '4'] then (CPU.apple_m4, Feature.apple_m4)
  else (CPU.apple_m1, Feature.apple_m1)

/-- C9: on Darwin + AArch64, host discovery returns the Apple CPU id of the
first of `M1`, `M2`, `M3`, `M4` (in that priority order) contained in the
sysctl brand string, paired with that CPU's canonical catalog feature set
(the last four conjuncts tie each returned feature set to the catalog
entry); any brand string containing none of them yields Apple M1. -/
theorem claim_C9_darwin_host_discovery (brand : List Char) :
    (strref_contains brand ['M', '1'] = true →
      darwin_get_host_cpu brand = (CPU.apple_m1, Feature.apple_m1)) ∧
    (strref_contains brand ['M', '1'] = false → strref_contains brand ['M', '2'] = true →
      darwin_get_host_cpu brand = (CPU.apple_m2, Feature.apple_m2)) ∧
    (strref_contains brand ['M', '1'] = false → strref_contains brand ['M', '2'] = false →
      strref_contains brand ['M', '3'] = true →
      darwin_get_host_cpu brand = (CPU.apple_m3, Feature.apple_m3)) ∧
    (strref_contains brand ['M', '1'] = false → strref_contains brand ['M', '2'] = false →
      strref_contains brand ['M', '3'] = false → strref_contains brand ['M', '4'] = true →
      darwin_get_host_cpu brand = (CPU.apple_m4, Feature.apple_m4)) ∧
    (strref_contains brand ['M', '1'] = false → strref_contains brand ['M', '2'] = false →
      strref_contains brand ['M', '3'] = false → strref_contains brand ['M', '4'] = false →
      darwin_get_host_cpu brand = (CPU.apple_m1, Feature.apple_m1)) ∧
    ((find_cpu "apple-m1").map (fun s => s.features) = some Feature.apple_m1) ∧
    ((find_cpu "apple-m2").map (fun s => s.features) = some Feature.apple_m2) ∧
    ((find_cpu "apple-m3").map (fun s => s.features) = some Feature.apple_m3) ∧
    ((find_cpu "apple-m4").map (fun s => s.features) = some Feature.apple_m4) := by
  refine ⟨fun h1 => ?_, fun h1 h2 => ?_, fun h1 h2 h3 => ?_, fun h1 h2 h3 h4 => ?_,
    fun h1 h2 h3 h4 => ?_, by decide, by decide, by decide, by decide⟩
  · simp [darwin_get_host_cpu, h1]
  · simp [darwin_get_host_cpu, h1, h2]
  · simp [darwin_get_host_cpu, h1, h2, h3]
  · simp [darwin_get_host_cpu, h1, h2, h3, h4]
  · simp [darwin_get_host_cpu, h1, h2, h3, h4]

/-! ## big.LITTLE shrink (`shrink_big_little`) -/

/-- `CPUID` of the source: per-core identification record. -/
structure CPUID where
  implementer : Nat
  variant : Nat
  part : Nat
deriving DecidableEq

/-- The `find` lambda of `shrink_big_little`: first index of `name` in the
family order list, `-1` when absent. -/
def bl_find (fam : List Nat) (name : Nat) : Int :=
  match fam.findIdx? (fun c => c == name) with
  | some i => (i : Int)
  | none => -1

/-- The `maxidx` accumulation loop of `shrink_big_little`. -/
def bl_maxidx (fam : List Nat) (list : List (Nat × CPUID)) : Int :=
  list.foldl (fun m e => max m (bl_find fam e.1)) (-1)

/-- `shrink_big_little`, source lines 1273–1297: once any family member is
present, erase every entry whose cpu id sits strictly below the
highest-indexed present member. -/
def shrink_big_little (list : List (Nat × CPUID)) (fam : List Nat) : List (Nat × CPUID) :=
  if 0 ≤ bl_maxidx fam list then
    list.filter (fun e =>
      !(bl_find fam e.1 != -1 && decide (bl_find fam e.1 < bl_maxidx fam list)))
  else list

theorem neg_one_le_bl_find (fam : List Nat) (n : Nat) : -1 ≤ bl_find fam n := by
  unfold bl_find
  split
  · omega
  · omega

theorem le_foldl_max (f : (Nat × CPUID) → Int) :
    ∀ (l : List (Nat × CPUID)) (acc : Int), acc ≤ l.foldl (fun m e => max m (f e)) acc := by
  intro l
  induction l with
  | nil => intro acc; exact le_refl _
  | cons a t ih =>
    intro acc
    exact (le_max_left acc (f a)).trans (ih (max acc (f a)))

theorem mem_le_foldl_max (f : (Nat × CPUID) → Int) :
    ∀ (l : List (Nat × CPUID)) (acc : Int) (x), x ∈ l →
      f x ≤ l.foldl (fun m e => max m (f e)) acc := by
  intro l
  induction l with
  | nil => intro acc x hx; cases hx
  | cons a t ih =>
    intro acc x hx
    rcases List.mem_cons.mp hx with rfl | hx
    · exact (le_max_right acc (f x)).trans (le_foldl_max f t (max acc (f x)))
    · exact ih (max acc (f a)) x hx

theorem bl_find_le_maxidx {fam : List Nat} {list : List (Nat × CPUID)}
    {e : Nat × CPUID} (he : e ∈ list) : bl_find fam e.1 ≤ bl_maxidx fam list :=
  mem_le_foldl_max (fun x => bl_find fam x.1) list (-1) e he

theorem bl_maxidx_absent (fam : List Nat) (list : List (Nat × CPUID))
    (h : ∀ e ∈ list, bl_find fam e.1 = -1) : bl_maxidx fam list = -1 := by
  unfold bl_maxidx
  induction list with
  | nil => rfl
  | cons a t ih =>
    have h1 : bl_find fam a.1 = -1 := h a (List.mem_cons_self a t)
    show List.foldl _ (max (-1) (bl_find fam a.1)) t = -1
    rw [h1, max_self]
    exact ih (fun e he => h e (List.mem_cons_of_mem a he))

/-- C10: `shrink_big_little` keeps exactly the entries whose cpu id is
either absent from the family order list or sits at an index not strictly
below the maximum index of any present member; when no entry's cpu id
appears in the family list, the list is left unchanged. -/
theorem claim_C10_shrink_big_little (list : List (Nat × CPUID)) (fam : List Nat) :
    (∀ e, e ∈ shrink_big_little list fam ↔
        e ∈ list ∧ ¬(0 ≤ bl_find fam e.1 ∧ bl_find fam e.1 < bl_maxidx fam list)) ∧
    ((∀ e ∈ list, bl_find fam e.1 = -1) → shrink_big_little list fam = list) := by
  constructor
  · intro e
    unfold shrink_big_little
    by_cases hm : 0 ≤ bl_maxidx fam list
    · rw [if_pos hm]
      rw [List.mem_filter]
      have hge := neg_one_le_bl_find fam e.1
      constructor
      · rintro ⟨he, hp⟩
        refine ⟨he, ?_⟩
        rintro ⟨h0, hlt⟩
        rw [Bool.not_eq_true', Bool.and_eq_false_iff] at hp
        rcases hp with hp | hp
        · rw [bne_eq_false_iff_eq] at hp
          omega
        · rw [decide_eq_false_iff_not] at hp
          exact hp hlt
      · rintro ⟨he, hn⟩
        refine ⟨he, ?_⟩
        rw [Bool.not_eq_true', Bool.and_eq_false_iff]
        by_cases hfind : bl_find fam e.1 = -1
        · left
          rw [bne_eq_false_iff_eq]
          exact hfind
        · right
          rw [decide_eq_false_iff_not]
          intro hlt
          exact hn ⟨by omega, hlt⟩
    · rw [if_neg hm]
      constructor
      · intro he
        refine ⟨he, ?_⟩
        rintro ⟨h0, hlt⟩
        have := @bl_find_le_maxidx fam list e he
        omega
      · exact fun h => h.1
  · intro h
    unfold shrink_big_little
    rw [if_neg (by rw [bl_maxidx_absent fam list h]; omega)]

/-! ## Clone-flag computation (`ensure_jit_target`, source lines 1690–1724)

Only the AArch64 part: `CLONE_MATH`/`CLONE_SIMD` sit behind `#ifdef
_CPU_ARM_`. -/

/-- The `clone_fp16` loop: does the target enable `fp16fml` or `fullfp16`
beyond its base target's features? -/
def clone_f16_check (base_features : Feat) (t : TargetData) : Bool :=
  [Feature.fp16fml, Feature.fullfp16].any
    (fun fe => !(decide (fe ∈ base_features)) && decide (fe ∈ t.en.features))

/-- Body of the clone-condition loop for the entry at index `i` of the
fully resolved JIT target list `l`. -/
def clone_flag_update (l : List TargetData) (i : Nat) (t : TargetData) : TargetData :=
  if i = 0 then t
  else if t.en.flags &&& JL_TARGET_CLONE_ALL ≠ 0 then t
  else
    { t with en := { t.en with flags :=
        (if clone_f16_check (l.getD t.base default).en.features t
         then (t.en.flags ||| JL_TARGET_CLONE_CPU) ||| JL_TARGET_CLONE_FLOAT16
         else t.en.flags ||| JL_TARGET_CLONE_CPU) ||| JL_TARGET_CLONE_LOOP } }

/-- The whole clone-condition loop over the resolved JIT target list. -/
def ensure_clone_flags (l : List TargetData) : List TargetData :=
  (List.range l.length).map (fun i => clone_flag_update l i (l.getD i default))

theorem lor_and_pow_self (x k : Nat) : (x ||| 2 ^ k) &&& 2 ^ k ≠ 0 := by
  rw [Nat.and_two_pow, Nat.testBit_lor, Nat.testBit_two_pow_self, Bool.or_true,
    Bool.toNat_true, one_mul]
  exact Nat.pos_iff_ne_zero.mp (Nat.pos_pow_of_pos k (by omega))

theorem lor_and_pow_of_ne (x : Nat) {j k : Nat} (h : j ≠ k) :
    (x ||| 2 ^ j) &&& 2 ^ k = x &&& 2 ^ k := by
  rw [Nat.and_two_pow, Nat.and_two_pow, Nat.testBit_lor, Nat.testBit_two_pow_of_ne h,
    Bool.or_false]

theorem ensure_clone_flags_getD (l : List TargetData) (i : Nat) (hi : i < l.length) :
    (ensure_clone_flags l).getD i default = clone_flag_update l i (l.getD i default) := by
  unfold ensure_clone_flags
  rw [List.getD_eq_getElem?_getD, List.getElem?_map, List.getElem?_range hi]
  rfl

/-- C6: in the resolved JIT target list, the first target never receives
clone flags automatically; a non-first target with `CLONE_ALL` is left
unchanged (receives none of them); every other non-first target receives
`CLONE_CPU` and `CLONE_LOOP`, and receives `CLONE_FLOAT16` exactly when it
enables `fp16fml` or `fullfp16` not enabled in its base target. -/
theorem claim_C6_clone_flags (l : List TargetData) (i : Nat) (hi : i < l.length) :
    ((ensure_clone_flags l).getD 0 default = l.getD 0 default) ∧
    (1 ≤ i → (l.getD i default).en.flags &&& JL_TARGET_CLONE_ALL ≠ 0 →
      (ensure_clone_flags l).getD i default = l.getD i default) ∧
    (1 ≤ i → (l.getD i default).en.flags &&& JL_TARGET_CLONE_ALL = 0 →
      (((ensure_clone_flags l).getD i default).en.flags &&& JL_TARGET_CLONE_CPU ≠ 0 ∧
       ((ensure_clone_flags l).getD i default).en.flags &&& JL_TARGET_CLONE_LOOP ≠ 0 ∧
       ((l.getD i default).en.flags &&& JL_TARGET_CLONE_FLOAT16 = 0 →
         (((ensure_clone_flags l).getD i default).en.flags &&& JL_TARGET_CLONE_FLOAT16 ≠ 0 ↔
           clone_f16_check (l.getD (l.getD i default).base default).en.features
             (l.getD i default) = true)))) := by
  refine ⟨?_, fun h1 hall => ?_, fun h1 hall => ?_⟩
  · by_cases h0 : 0 < l.length
    · rw [ensure_clone_flags_getD l 0 h0]
      unfold clone_flag_update
      rw [if_pos rfl]
    · have hl : l = [] := List.length_eq_zero.mp (by omega)
      subst hl
      rfl
  · rw [ensure_clone_flags_getD l i hi]
    unfold clone_flag_update
    rw [if_neg (by omega), if_pos hall]
  · rw [ensure_clone_flags_getD l i hi]
    unfold clone_flag_update
    rw [if_neg (by omega), if_neg (fun hcon => hcon hall)]
    set t := l.getD i default with ht
    set c := clone_f16_check (l.getD t.base default).en.features t with hc
    by_cases hcv : c = true
    · rw [if_pos hcv]
      simp only [JL_TARGET_CLONE_CPU, JL_TARGET_CLONE_LOOP, JL_TARGET_CLONE_FLOAT16]
      refine ⟨?_, ?_, fun _ => ?_⟩
      · rw [lor_and_pow_of_ne _ (by omega), lor_and_pow_of_ne _ (by omega)]
        exact lor_and_pow_self _ _
      · exact lor_and_pow_self _ _
      · constructor
        · intro _
          exact hcv
        · intro _
          rw [lor_and_pow_of_ne _ (by omega)]
          exact lor_and_pow_self _ _
    · rw [if_neg hcv]
      simp only [JL_TARGET_CLONE_CPU, JL_TARGET_CLONE_LOOP, JL_TARGET_CLONE_FLOAT16]
      refine ⟨?_, ?_, fun hf0 => ?_⟩
      · rw [lor_and_pow_of_ne _ (by omega)]
        exact lor_and_pow_self _ _
      · exact lor_and_pow_self _ _
      · constructor
        · intro habs
          rw [lor_and_pow_of_ne _ (by omega), lor_and_pow_of_ne _ (by omega)] at habs
          exact absurd hf0 habs
        · intro habs
          exact absurd habs hcv

/-! ## Backend string emitter (`get_llvm_target_noext`, AArch64 branch)

`JL_LLVM_VERSION` is a build constant; it is a parameter `ver` here. -/

/-- The fallback-chain walk at the top of `get_llvm_target_noext`,
fuel-bounded (the source's `while (spec)` loop; the catalog's fallback
chains terminate well within `cpus.length` steps, and a missing fallback id
stops the walk — the C code would dereference null there). -/
def fallback_walk (ver : Nat) : Nat → Option CPUSpec → String → Option CPUSpec × String
  | 0, spec, name => (spec, name)
  | fuel+1, spec, name =>
    match spec with
    | none => (none, name)
    | some s =>
      if s.llvmver ≤ ver then (some s, name)
      else
        match find_cpu_id s.fallback with
        | none => (none, name)
        | some s2 => fallback_walk ver fuel (some s2) s2.name

/-- The per-feature emission loop: `+name` entries are prepended, `-name`
entries appended; a nominal (word-2) bit stops the loop. -/
def emit_feats (ver : Nat) (en dis : Feat) : List FeatureName → List String → List String
  | [], acc => acc
  | fn :: rest, acc =>
    if ver < fn.llvmver then emit_feats ver en dis rest acc
    else if 64 ≤ fn.bit.val then acc
    else if fn.bit ∈ en then emit_feats ver en dis rest (("+" ++ fn.name) :: acc)
    else if fn.bit ∈ dis then emit_feats ver en dis rest (acc ++ ["-" ++ fn.name])
    else emit_feats ver en dis rest acc

/-- The trailing architecture flags: one `+v8.xa` per set version bit in
descending order, then the unconditional `+neon` and `+fp-armv8`. -/
def arch_version_flag_strs (features : Feat) : List String :=
  (if Feature.v8_6a ∈ features then ["+v8.6a"] else []) ++
  (if Feature.v8_5a ∈ features then ["+v8.5a"] else []) ++
  (if Feature.v8_4a ∈ features then ["+v8.4a"] else []) ++
  (if Feature.v8_3a ∈ features then ["+v8.3a"] else []) ++
  (if Feature.v8_2a ∈ features then ["+v8.2a"] else []) ++
  (if Feature.v8_1a ∈ features then ["+v8.1a"] else []) ++
  ["+neon", "+fp-armv8"]

/-- `get_llvm_target_noext` (AArch64): walk the fallback chain, rename a
generic CPU to `"generic"` (unioning its base features in), then emit the
feature strings. -/
def get_llvm_target_noext (ver : Nat) (data : TargetData) : String × List String :=
  let w := fallback_walk ver cpus.length (find_cpu data.name) data.name
  let fn := match w.1 with
    | some s =>
      if is_generic_cpu_name s.cpu then (data.en.features ∪ s.features, "generic")
      else (data.en.features, w.2)
    | none => (data.en.features, w.2)
  (fn.2, emit_feats ver fn.1 data.dis.features feature_names [] ++ arch_version_flag_strs fn.1)

/-! ## Concrete scenarios, counterexamples and witnesses

The closure definitions are restored to ordinary reducibility so that
`decide` can evaluate them on concrete inputs. -/

set_option allowUnsafeReducibility true in
attribute [semireducible] estep epass eiter edgeClosure dstep dpass diter dedgeClosure
  condInsert arm_pre

def generic_host : HostState := ⟨CPU.generic, ∅, "generic"⟩

def generic_target : TargetData := ⟨"generic", "", ⟨∅, 0⟩, ⟨∅, 0⟩, 0⟩

set_option maxRecDepth 40000 in
/-- C1 counterexample: resolving the catalog CPU `"generic"` leaves the
version pseudo-bits unset in the enable set, so the source's
`feature_masks & ~enable` disable set contains nominal word-2 bits and is
not `real_feature_masks & ~enable` as the claim states. -/
theorem claim_C1_counterexample :
    ¬ ((arg_target_data generic_host generic_target false).dis.features =
        real_feature_masks \ (arg_target_data generic_host generic_target false).en.features) := by
  decide

set_option maxRecDepth 40000 in
/-- C1 witness: the amended theorem applied to the catalog CPU `"generic"`. -/
theorem claim_C1_witness :
    (find_cpu "generic").isSome = true ∧
    (arg_target_data generic_host generic_target false).dis.features =
      feature_masks \ (arg_target_data generic_host generic_target false).en.features :=
  ⟨by decide, claim_C1_disable_eq_mask_sdiff_enable generic_host generic_target false
    (Or.inr (by decide))⟩

/-- Host state of the C2 scenario: an AArch64 Apple M2 machine, as
discovered through the Darwin brand-string path. -/
def m2_host : HostState :=
  ⟨(darwin_get_host_cpu ("Apple M2".data)).1, (darwin_get_host_cpu ("Apple M2".data)).2,
   "apple-m2"⟩

def native_target : TargetData := ⟨"native", "", ⟨∅, 0⟩, ⟨∅, 0⟩, 0⟩

def m2_resolved : TargetData := arg_target_data m2_host native_target true

def m2_emitted : String × List String := get_llvm_target_noext 140000 m2_resolved

set_option maxRecDepth 100000 in
/-- C2 counterexample: in the Apple-M2 `"native"` scenario at backend
version 140000 the emitted feature list does not begin with
`+neon,+fp-armv8,+v8.5a,…`; the source appends those flags last. -/
theorem claim_C2_counterexample :
    ¬ (m2_emitted.2.take 7 =
        ["+neon", "+fp-armv8", "+v8.5a", "+v8.4a", "+v8.3a", "+v8.2a", "+v8.1a"]) := by
  decide

set_option maxRecDepth 100000 in
/-- C2 (amended): host AArch64 Apple M2, target `"native"`, backend version
140000: the resolved target is named `"apple-m2"`, its enabled features
include `v8_5a`, `aes`, `sha2`, `dotprod`, `fp16fml`, `fullfp16`, `sha3`,
`i8mm` and `bf16`, and the emitted backend feature list ends with
`+v8.5a,+v8.4a,+v8.3a,+v8.2a,+v8.1a,+neon,+fp-armv8` (the version ladder in
descending order followed by the unconditional flags — not the beginning of
the list, as the claim states). -/
theorem claim_C2_m2_native_scenario :
    m2_resolved.name = "apple-m2" ∧
    ({Feature.v8_5a, Feature.aes, Feature.sha2, Feature.dotprod, Feature.fp16fml,
      Feature.fullfp16, Feature.sha3, Feature.i8mm, Feature.bf16} : Feat) ⊆
      m2_resolved.en.features ∧
    m2_emitted.2.drop (m2_emitted.2.length - 7) =
      ["+v8.5a", "+v8.4a", "+v8.3a", "+v8.2a", "+v8.1a", "+neon", "+fp-armv8"] := by
  decide

def two_targets : List TargetData := [default, default]

/-- C5 witness: the init-order theorem applied to a two-element JIT target
list (and to the empty list). -/
theorem claim_C5_witness :
    jl_init_processor_sysimg two_targets = Except.error "JIT targets already initialized" ∧
    jl_init_processor_pkgimg [] = Except.error "JIT targets not initialized" ∧
    jl_init_processor_pkgimg two_targets = Except.error "Expected only one JIT target" :=
  ⟨(claim_C5_init_order_errors two_targets).1 (by decide),
   (claim_C5_init_order_errors two_targets).2.1,
   (claim_C5_init_order_errors two_targets).2.2 (by decide)⟩

def c6_first : TargetData := ⟨"generic", "", ⟨∅, 0⟩, ⟨∅, 0⟩, 0⟩

def c6_second : TargetData := ⟨"apple-m2", "", ⟨{Feature.fullfp16}, 0⟩, ⟨∅, 0⟩, 0⟩

def c6_list : List TargetData := [c6_first, c6_second]

/-- C6 witness: the clone-flag theorem applied to a concrete two-target
list whose second target enables `fullfp16` beyond its base. -/
theorem claim_C6_witness :
    ((ensure_clone_flags c6_list).getD 1 default).en.flags &&& JL_TARGET_CLONE_CPU ≠ 0 ∧
    ((ensure_clone_flags c6_list).getD 1 default).en.flags &&& JL_TARGET_CLONE_LOOP ≠ 0 ∧
    (((ensure_clone_flags c6_list).getD 1 default).en.flags &&& JL_TARGET_CLONE_FLOAT16 ≠ 0 ↔
      clone_f16_check (c6_list.getD (c6_list.getD 1 default).base default).en.features
        (c6_list.getD 1 default) = true) := by
  have h := (claim_C6_clone_flags c6_list 1 (by decide)).2.2 (by decide) (by decide)
  exact ⟨h.1, h.2.1, h.2.2 (by decide)⟩

def crc_host : Feat := {Feature.crc}

/-- C7 witness: the bounds theorem applied at bits 100 (out of range) and 0
(in range) of a concrete host vector. -/
theorem claim_C7_witness :
    jl_test_cpu_feature crc_host 100 = false ∧
    jl_test_cpu_feature crc_host 0 = test_nbit crc_host 0 :=
  ⟨(claim_C7_test_cpu_feature_bounds crc_host 100).1 (by decide),
   (claim_C7_test_cpu_feature_bounds crc_host 0).2 (by decide)⟩

/-- C9 witness: the discovery theorem applied to the brand string
`"Apple M2 Max"`. -/
theorem claim_C9_witness :
    darwin_get_host_cpu ("Apple M2 Max".data) = (CPU.apple_m2, Feature.apple_m2) :=
  (claim_C9_darwin_host_discovery ("Apple M2 Max".data)).2.1 (by decide) (by decide)

def c10_id (p : Nat) : CPUID := ⟨65, 0, p⟩

def c10_list : List (Nat × CPUID) :=
  [(CPU.arm_cortex_a53, c10_id 3), (CPU.arm_cortex_a76, c10_id 11), (421, c10_id 5)]

def c10_fam : List Nat := [CPU.arm_cortex_a53, CPU.arm_cortex_a55, CPU.arm_cortex_a76]

def c10_absent : List (Nat × CPUID) := [(421, c10_id 5)]

/-- C10 witness: the shrink theorem applied to a concrete core list
(cortex-a53 and cortex-a76 present, one unknown id) and to a list with no
family member present. -/
theorem claim_C10_witness :
    ((CPU.arm_cortex_a53, c10_id 3) ∈ shrink_big_little c10_list c10_fam ↔
      ((CPU.arm_cortex_a53, c10_id 3) ∈ c10_list ∧
        ¬(0 ≤ bl_find c10_fam (CPU.arm_cortex_a53, c10_id 3).1 ∧
          bl_find c10_fam (CPU.arm_cortex_a53, c10_id 3).1 < bl_maxidx c10_fam c10_list))) ∧
    shrink_big_little c10_absent c10_fam = c10_absent :=
  ⟨(claim_C10_shrink_big_little c10_list c10_fam).1 (CPU.arm_cortex_a53, c10_id 3),
   (claim_C10_shrink_big_little c10_absent c10_fam).2 (by decide)⟩

end ARM
